import Mathlib

/-!
Verification development for the medical expert system in `expert.py`.

The Python source is shallowly embedded: the engine's mutable
`yes_symptoms` set becomes an explicit `Finset String`, the GUI side
effects (`end_chat_message`, `enable_treatment`) become an explicit event
list, the best-match heap becomes an insertion sort under the very tuple
order Python's `heapq` uses on `(-score, disease, matched)` tuples, and
the `sessions.csv` file becomes a list of rows.

Python compares strings lexicographically by code point; Lean's built-in
`String` order does not reduce in the kernel, so we define the same
code-point order directly on the character lists.
-/

/-- Strict lexicographic code-point comparison of character lists: this is
exactly how Python compares the strings that appear in `heapq` tuples and
in `sorted(...)`. -/
def lexLt : List Char → List Char → Bool
  | [], [] => false
  | [], _ :: _ => true
  | _ :: _, [] => false
  | a :: as, b :: bs =>
    if a.toNat < b.toNat then true
    else if b.toNat < a.toNat then false
    else lexLt as bs
theorem lexLt_asymm : ∀ a b, lexLt a b = true → lexLt b a = false
  | [], [] => by simp [lexLt]
  | [], _ :: _ => by simp [lexLt]
  | _ :: _, [] => by simp [lexLt]
  | a :: as, b :: bs => by
    by_cases h1 : a.toNat < b.toNat
    · intro _
      simp [lexLt, h1, Nat.lt_asymm h1]
    · by_cases h2 : b.toNat < a.toNat
      · simp [lexLt, h1, h2]
      · intro h
        simp only [lexLt, if_neg h1, if_neg h2] at h ⊢
        exact lexLt_asymm as bs h

theorem lexLt_antisymm : ∀ a b, lexLt a b = false → lexLt b a = false → a = b
  | [], [] => by simp
  | [], _ :: _ => by simp [lexLt]
  | _ :: _, [] => by simp [lexLt]
  | a :: as, b :: bs => by
    by_cases h1 : a.toNat < b.toNat
    · simp [lexLt, h1]
    · by_cases h2 : b.toNat < a.toNat
      · simp [lexLt, h1, h2]
      · intro ha hb
        simp only [lexLt, if_neg h1, if_neg h2] at ha hb
        have hc : a = b := Char.ext (UInt32.toNat.inj (Nat.le_antisymm
          (Nat.le_of_not_lt h2) (Nat.le_of_not_lt h1)))
        rw [hc, lexLt_antisymm as bs ha hb]

theorem lexLt_trans : ∀ a b c, lexLt a b = true → lexLt b c = true → lexLt a c = true
  | [], [], _ => by simp [lexLt]
  | [], _ :: _, [] => by simp [lexLt]
  | [], _ :: _, _ :: _ => by simp [lexLt]
  | _ :: _, [], _ => by simp [lexLt]
  | a :: as, b :: bs, [] => by simp [lexLt]
  | a :: as, b :: bs, c :: cs => by
    intro hab hbc
    simp only [lexLt] at hab hbc ⊢
    split_ifs at hab hbc ⊢ <;>
      first
        | rfl
        | omega
        | exact Bool.noConfusion hab
        | exact Bool.noConfusion hbc
        | exact lexLt_trans as bs cs hab hbc
/-- Code-point `≤` on strings, the order Python's `sorted` and tuple
comparison induce on the names and tokens of this program. -/
def strle (a b : String) : Prop := lexLt b.data a.data = false

instance : DecidableRel strle := fun a b =>
  inferInstanceAs (Decidable (lexLt b.data a.data = false))

instance : IsTotal String strle := by
  constructor
  intro a b
  cases h : lexLt b.data a.data
  · exact Or.inl h
  · exact Or.inr (lexLt_asymm _ _ h)

instance : IsTrans String strle := by
  constructor
  intro a b c hab hbc
  unfold strle at hab hbc ⊢
  cases h : lexLt c.data a.data
  · rfl
  · exfalso
    cases h2 : lexLt a.data b.data
    · have hdata : a.data = b.data := lexLt_antisymm _ _ h2 hab
      rw [hdata] at h
      rw [h] at hbc
      exact Bool.noConfusion hbc
    · have := lexLt_trans _ _ _ h h2
      rw [this] at hbc
      exact Bool.noConfusion hbc

instance : IsAntisymm String strle := by
  constructor
  intro a b hab hba
  cases a; cases b
  exact congrArg String.mk (lexLt_antisymm _ _ hba hab)

theorem strle_total (a b : String) : strle a b ∨ strle b a := total_of strle a b

theorem strle_trans {a b c : String} (h1 : strle a b) (h2 : strle b c) : strle a c :=
  Trans.trans h1 h2

-- ---------------------------------------------------------------------------
-- MedicalExpertEngine state: the affirmed-symptom set and its only writer
-- ---------------------------------------------------------------------------

/-- `MedicalExpertEngine._record_yes`: adds a canonical token to the
`yes_symptoms` set; Python's `if token:` skips only the empty string. -/
def record_yes (token : String) (ys : Finset String) : Finset String :=
  if token = "" then ys else insert token ys

/-- `self.disease_profiles` from `MedicalExpertEngine.__init__`, verbatim and
in dict insertion order. -/
def disease_profiles : List (String × List String) :=
  [("Arthritis", ["stiff_joints", "swollen_joints", "red_skin_around_joints", "reduced_movement", "tiredness", "joint_pain"]),
   ("Peptic Ulcer", ["severe_vomiting", "burning_stomach", "bloating", "nausea", "weight_loss", "abdominal_pain"]),
   ("Gastritis", ["normal_vomiting", "nausea", "fullness_upper_abdomen", "bloating_abdomen", "abdominal_pain", "indigestion", "gnawing_pain"]),
   ("Diabetes", ["fatigue", "extreme_thirst", "extreme_hunger", "frequent_urination", "weight_loss", "blurred_vision", "frequent_infections", "sores"]),
   ("Dehydration", ["fatigue", "extreme_thirst", "dizziness", "dark_urine", "lethargy", "dry_mouth", "less_frequent_urination"]),
   ("Hypothyroidism", ["fatigue", "muscle_weakness", "depression", "constipation", "feeling_cold", "dry_skin", "dry_hair", "weight_gain", "decreased_sweating", "slow_heart", "joint_pains", "hoarseness"]),
   ("Obesity", ["short_breath", "back_joint_pain", "high_sweating", "snoring", "sudden_physical", "tiredness"]),
   ("Anemia", ["short_breath", "chest_pain", "fatigue", "headache", "irregular_heartbeat", "weakness", "pale_skin", "dizziness"]),
   ("Coronary Arteriosclerosis", ["short_breath", "chest_pain", "arm_pains", "heaviness", "sweating", "dizziness", "burning_heart"]),
   ("Asthma", ["short_breath", "chest_pain", "cough", "wheezing", "sleep_trouble"]),
   ("Dengue", ["high_fever", "headache", "eye_pain", "muscle_pain", "joint_pain", "nausea", "rashes", "bleeding"]),
   ("Bronchitis", ["low_fever", "cough", "wheezing", "chills", "chest_tightness", "sore_throat", "body_aches", "headache", "breathlessness", "blocked_nose"]),
   ("Tuberculosis", ["fever", "chest_pain", "fatigue", "loss_of_appetite", "persistent_cough"]),
   ("Influenza", ["fever", "fatigue", "sore_throat", "weakness", "dry_cough", "muscle_ache", "chills", "nasal_congestion", "headache"]),
   ("Hepatitis", ["fever", "fatigue", "abdominal_pain", "flu_like", "dark_urine", "pale_stool", "weight_loss", "jaundice"]),
   ("Pneumonia", ["fever", "chest_pain", "short_breath", "nausea", "sweat_chills", "rapid_breath", "cough_phlegm", "diarrhea"]),
   ("Malaria", ["fever", "chills", "abdominal_pain", "nausea", "headache", "sweating", "cough", "weakness", "muscle_pain", "back_pain"]),
   ("AIDS", ["fever", "rashes", "headache", "muscle_ache", "sore_throat", "swollen_lymph", "diarrhea", "cough", "weight_loss", "night_sweat"]),
   ("Pancreatitis", ["nausea", "fever", "upper_abdominal_pain", "fast_heartbeat", "weight_loss", "oily_stool"]),
   ("COVID-19", ["fever", "fatigue", "short_breath", "nausea", "chills", "cough", "body_aches", "headache", "sore_throat", "diarrhea", "loss_of_taste_smell"])]

-- ---------------------------------------------------------------------------
-- Interaction-surface events and session finalization
-- ---------------------------------------------------------------------------

/-- One-way notifications the engine sends to the `ChatGUI`:
`end_chat_message` and `enable_treatment`. -/
inductive Ev where
  | tell (msg : String)
  | enableTreatment (disease : String)
deriving DecidableEq

/-- `MedicalExpertEngine._log_session`: the `try/except` around the csv
append; on failure the engine appends a chat message and continues. -/
def logEvents : Except String Unit → List Ev
  | Except.ok _ => []
  | Except.error e => [Ev.tell ("(Session logging failed: " ++ e ++ ")")]

/-- The engine fields set by `_finalize` plus the GUI events it emits
(in order), just before it raises `SystemExit`. -/
structure FinalState where
  diagnosis : String
  matched_symptoms : List String
  events : List Ev
deriving DecidableEq

/-- `MedicalExpertEngine._finalize`: store the diagnosis, show it, enable
the treatment button, log the session. -/
def finalize (disease : String) (syms : List String) (log : Except String Unit) : FinalState :=
  { diagnosis := disease
    matched_symptoms := syms
    events := [Ev.tell ("Diagnosis: " ++ disease ++ "\nMatched symptoms:\n - " ++
                 String.intercalate "\n - " syms),
               Ev.enableTreatment disease] ++ logEvents log }

-- ---------------------------------------------------------------------------
-- ask_basic: the fever multi-select (C10)
-- ---------------------------------------------------------------------------

/-- A fact declared into experta's working memory: either a key=value fact
such as `Fact(fever="yes")` or a bare token fact such as `Fact("normal_fever")`. -/
inductive EFact where
  | kv (key val : String)
  | tok (t : String)
deriving DecidableEq

/-- Models Python's `f.lower().replace(" ", "_")` on an option label
(lowercasing never produces or removes a space, so one pass suffices). -/
def canonToken (f : String) : String :=
  String.mk (f.data.map (fun c => if c = ' ' then '_' else c.toLower))

/-- The fever multi-select block of `ask_basic` (lines 335-349): on a
non-`"none"` selection it declares `Fact(fever="yes")`, then for each chosen
option records the mapped symptom token and declares the bare token fact;
otherwise it declares `Fact(fever="no")`.  Returns (declared facts in
order, recorded tokens). -/
def feverStep (fevers : List String) : List EFact × Finset String :=
  if fevers ≠ [] ∧ fevers.head? ≠ some "none" then
    fevers.foldl
      (fun acc f =>
        let token := canonToken f
        let ys :=
          if token = "normal_fever" then record_yes "fever" acc.2
          else if token = "low_fever" then record_yes "low_fever" acc.2
          else if token = "high_fever" then record_yes "high_fever" acc.2
          else acc.2
        (acc.1 ++ [EFact.tok token], ys))
      ([EFact.kv "fever" "yes"], ∅)
  else ([EFact.kv "fever" "no"], ∅)

-- ---------------------------------------------------------------------------
-- Disease rules: sub-question lists and vote thresholds (C1)
-- ---------------------------------------------------------------------------

/-- One `@Rule`-decorated disease rule: its question/token list, the
minimum number of "yes" votes that finalizes, and the display labels
passed to `_finalize`. -/
structure DiseaseRule where
  name : String
  questions : List (String × String)
  threshold : Nat
  syms : List String
deriving DecidableEq

/-- Python's `sum(1 for v in checks if v == "yes")`. -/
def countYes (checks : List String) : Nat :=
  (checks.filter (fun v => v == "yes")).length

/-- The body shared by every disease rule: ask each sub-question, record
the token of every "yes" answer, and call `_finalize` iff the tally of
"yes" answers reaches the threshold.  `ansOf` maps a question text to the
user's answer. -/
def runRule (ansOf : String → String) (r : DiseaseRule) (ys : Finset String)
    (log : Except String Unit) : Finset String × Option FinalState :=
  let checks := r.questions.map (fun qt => ansOf qt.1)
  let ys2 := r.questions.foldl
    (fun s qt => if ansOf qt.1 = "yes" then record_yes qt.2 s else s) ys
  if r.threshold ≤ countYes checks then (ys2, some (finalize r.name r.syms log))
  else (ys2, none)

/-- `rule_arthritis` (guard: appetite_loss=yes, fever=no, short_breath=no,
fatigue=no, joint_pain=yes). -/
def rule_arthritis : DiseaseRule :=
  { name := "Arthritis"
    questions :=
      [("Are you having stiff Joints?", "stiff_joints"),
       ("Are you experiencing swollen Joints?", "swollen_joints"),
       ("Did the skin turn red around the Joints?", "red_skin_around_joints"),
       ("Did the range of motion decrease at the Joints?", "reduced_movement"),
       ("Are you feeling tired even if you walk a small distance?", "tiredness")]
    threshold := 3
    syms := ["Stiff joints", "Swelling in joints", "Joint Pains", "Red skin around joints",
             "Tiredness", "Reduced Movement near joints", "Appetite loss"] }

/-- `rule_peptic`. -/
def rule_peptic : DiseaseRule :=
  { name := "Peptic Ulcer"
    questions :=
      [("Is your stomach having burning sensation?", "burning_stomach"),
       ("Are you having a feeling of fullness, bloating or belching?", "bloating"),
       ("Are you having mild Nausea?", "nausea"),
       ("Did you lose weight?", "weight_loss"),
       ("Are you having an intense and localized abdominal pain?", "abdominal_pain")]
    threshold := 3
    syms := ["Appetite loss", "Severe Vomiting", "Burning sensation in stomach",
             "Bloated stomach", "Nausea", "Weight loss", "Abdominal pain"] }

/-- `rule_gastritis`. -/
def rule_gastritis : DiseaseRule :=
  { name := "Gastritis"
    questions :=
      [("Are you having a feeling of vomiting (Nausea)?", "nausea"),
       ("Are you having a feeling of fullness in your upper abdomen?", "fullness_upper_abdomen"),
       ("Are you feeling bloating in your abdomen?", "bloating_abdomen"),
       ("Are you having pain near abdomen?", "abdominal_pain"),
       ("Are you facing problems of indigestion?", "indigestion"),
       ("Are you experiencing a gnawing or burning ache or pain in your upper abdomen?", "gnawing_pain")]
    threshold := 4
    syms := ["Appetite loss", "Vomiting", "Nausea", "Fullness near abdomen", "Bloating near abdomen",
             "Abdominal pain", "Indigestion", "Gnawing pain near abdomen"] }

/-- `rule_diabetes`. -/
def rule_diabetes : DiseaseRule :=
  { name := "Diabetes"
    questions :=
      [("Is your urination more frequent than before?", "frequent_urination"),
       ("Did you lose weight unintentionally?", "weight_loss"),
       ("Are you more irritable nowadays?", "irritability"),
       ("Did your vision get blurred?", "blurred_vision"),
       ("Are you having frequent infections such as gum or skin infections?", "frequent_infections"),
       ("Are your sores healing slowly?", "sores")]
    threshold := 4
    syms := ["Fatigue", "Extreme thirst", "Extreme hunger", "Weight loss", "Blurred vision",
             "Frequent infections", "Frequent urination", "Irritability", "Slow healing of sores"] }

/-- `rule_dehydration`. -/
def rule_dehydration : DiseaseRule :=
  { name := "Dehydration"
    questions :=
      [("Are you having less frequent urination?", "less_frequent_urination"),
       ("Is your urine dark?", "dark_urine"),
       ("Are you feeling lethargic?", "lethargy"),
       ("Is your mouth considerably dry?", "dry_mouth")]
    threshold := 2
    syms := ["Fatigue", "Extreme thirst", "Dizziness", "Dark urine", "Lethargy", "Dry mouth",
             "Less frequent urination"] }

/-- `rule_hypothyroid`. -/
def rule_hypothyroid : DiseaseRule :=
  { name := "Hypothyroidism"
    questions :=
      [("Are you feeling depressed nowadays?", "depression"),
       ("Are you experiencing constipation?", "constipation"),
       ("Are you feeling cold?", "feeling_cold"),
       ("Has your skin become drier?", "dry_skin"),
       ("Is your hair becoming dry or thinner?", "dry_hair"),
       ("Did you gain weight?", "weight_gain"),
       ("Are you not sweating much as earlier?", "decreased_sweating"),
       ("Did your heart rate slow down?", "slow_heart"),
       ("Are you experiencing pain and stiffness in joints?", "joint_pains"),
       ("Is your voice changing / hoarse?", "hoarseness")]
    threshold := 7
    syms := ["Fatigue", "Muscle weakness", "Depression", "Constipation", "Cold feeling", "Dry skin",
             "Dry hair", "Weight gain", "Decreased sweating", "Slow heart rate", "Joint pains",
             "Hoarseness in voice"] }

/-- `rule_obesity`. -/
def rule_obesity : DiseaseRule :=
  { name := "Obesity"
    questions :=
      [("Are you sweating more than normal?", "high_sweating"),
       ("Did you develop a habit of snoring?", "snoring"),
       ("Are you not able to cope up with sudden physical activity?", "sudden_physical"),
       ("Are you feeling tired every day without doing much work?", "tiredness"),
       ("Are you feeling isolated?", "isolated"),
       ("Are you having low confidence and self esteem?", "low_confidence")]
    threshold := 4
    syms := ["Shortness in breath", "Back and Joint pains", "High sweating", "Snoring habit",
             "Tireness", "Low confidence"] }

/-- `rule_anemia`. -/
def rule_anemia : DiseaseRule :=
  { name := "Anemia"
    questions :=
      [("Are you experiencing irregular heartbeat?", "irregular_heartbeat"),
       ("Are you feeling weak?", "weakness"),
       ("Has your skin turned pale or yellowish?", "pale_skin"),
       ("Are you having dizziness or light headedness?", "lightheadedness"),
       ("Are you having cold hands and feet?", "cold_hands_feet")]
    threshold := 3
    syms := ["Shortness in breath", "Chest pain", "Fatigue", "Headache", "Irregular heartbeat",
             "Weakness", "Pale skin", "Dizziness", "Cold limbs"] }

/-- `rule_cad`. -/
def rule_cad : DiseaseRule :=
  { name := "Coronary Arteriosclerosis"
    questions :=
      [("Did you have a feeling of heaviness or tightness in the chest?", "heaviness"),
       ("Are you sweating frequently?", "sweating"),
       ("Are you feeling dizzy?", "dizziness"),
       ("Do you feel burning sensation near heart?", "burning_heart")]
    threshold := 2
    syms := ["Shortness in breath", "Chest pain", "Fatigue", "Arm pains", "Heaviness", "Sweating",
             "Diziness", "Burning sensation near heart"] }

/-- `rule_asthma`. -/
def rule_asthma : DiseaseRule :=
  { name := "Asthma"
    questions :=
      [("Are you having a whistling or wheezing sound when exhaling?", "wheezing"),
       ("Are you having trouble sleeping caused by shortness of breath, coughing or wheezing?", "sleep_trouble")]
    threshold := 1
    syms := ["Shortness in breath", "Chest pain", "Cough", "Wheezing sound when exhaling",
             "Trouble sleep because of coughing or wheezing"] }

/-- `rule_dengue`. -/
def rule_dengue : DiseaseRule :=
  { name := "Dengue"
    questions :=
      [("Are you experiencing severe headache?", "headache"),
       ("Are you having pain behind eyes?", "eye_pain"),
       ("Are you having severe muscle pain?", "muscle_pain"),
       ("Are you having severe joint pain?", "joint_pain"),
       ("Have you vomited or felt like vomiting (Nausea)?", "nausea"),
       ("Have you experienced rashes on skin appearing 2-5 days after fever onset?", "rashes"),
       ("Are you having mild bleeding such a nose bleed or bleeding gums?", "bleeding")]
    threshold := 5
    syms := ["High fever", "Headache", "Eye pain", "Muscle pain", "Joint pains", "Nausea",
             "Rashes", "Bleeding"] }

/-- `rule_bronchitis`. -/
def rule_bronchitis : DiseaseRule :=
  { name := "Bronchitis"
    questions :=
      [("Are you having a persistent cough which may produce yellow/grey mucus?", "cough"),
       ("Are you experiencing Wheezing?", "wheezing"),
       ("Are you experiencing chills?", "chills"),
       ("Are you having a feeling of tightness in the chest?", "chest_tightness"),
       ("Are you having a sore throat?", "sore_throat"),
       ("Are you having body pains?", "body_aches"),
       ("Are you experiencing breathlessness?", "breathlessness"),
       ("Are you having headache?", "headache"),
       ("Are you having a blocked nose or sinuses?", "blocked_nose")]
    threshold := 7
    syms := ["Slight Fever", "Cough", "Wheezing", "Chills", "Tightness in chest", "Sore throat",
             "Body aches", "Headache", "Breathlessness", "Blocked nose"] }

/-- `rule_tb`. -/
def rule_tb : DiseaseRule :=
  { name := "Tuberculosis"
    questions :=
      [("Are you experiencing persistent cough which lasted more than 2 to 3 weeks?", "persistent_cough"),
       ("Did you experience unintentional weight loss?", "weight_loss"),
       ("Are you experiencing Night Sweats?", "night_sweats"),
       ("Are you coughing up blood?", "cough_blood")]
    threshold := 2
    syms := ["fever", "chest pain", "fatigue", "loss of appetite", "persistent cough"] }

/-- `rule_influenza`. -/
def rule_influenza : DiseaseRule :=
  { name := "Influenza"
    questions :=
      [("Are you experiencing weakness?", "weakness"),
       ("Are you having dry persistent cough?", "dry_cough"),
       ("Are you having aching muscles?", "muscle_ache"),
       ("Are you experiencing sweats along with chills?", "chills"),
       ("Are you experiencing nasal congestion?", "nasal_congestion"),
       ("Are you experiencing headache?", "headache")]
    threshold := 4
    syms := ["Fever", "Fatigue", "Sore throat", "Weakness", "Dry cough", "Muscle aches", "Chills",
             "Nasal congestion", "Headache"] }

/-- `rule_hepatitis`. -/
def rule_hepatitis : DiseaseRule :=
  { name := "Hepatitis"
    questions :=
      [("Are you experiencing flu-like symptoms?", "flu_like"),
       ("Are you getting dark urine?", "dark_urine"),
       ("Are you having pale stool?", "pale_stool"),
       ("Are you experiencing unexplained weight loss?", "weight_loss"),
       ("Are your skin and eyes turning yellow?", "jaundice")]
    threshold := 3
    syms := ["Fever", "Fatigue", "Abdominal pain", "Flu-like symptoms", "Dark urine", "Pale stool",
             "Weight loss", "Jaundice"] }

/-- `rule_pneumonia`. -/
def rule_pneumonia : DiseaseRule :=
  { name := "Pneumonia"
    questions :=
      [("Are you experiencing shortness of breath while doing normal activities or while resting?", "short_breath"),
       ("Are you experiencing sweating along with chills?", "sweat_chills"),
       ("Are you breathing rapidly?", "rapid_breath"),
       ("Are you having a worsening cough that may produce yellow/green or bloody mucus?", "cough_phlegm"),
       ("Are you experiencing Diarrhea?", "diarrhea")]
    threshold := 3
    syms := ["Fever", "Chest pain", "Shortness in breath", "Nausea", "Sweating with chills",
             "Rapid breathing", "Cough with phlegm", "Diarrhea"] }

/-- `rule_malaria`. -/
def rule_malaria : DiseaseRule :=
  { name := "Malaria"
    questions :=
      [("Are you experiencing headache?", "headache"),
       ("Are you experiencing sweating frequently?", "sweating"),
       ("Are you coughing frequently?", "cough"),
       ("Are you experiencing weakness?", "weakness"),
       ("Are you having intense muscle pain?", "muscle_pain"),
       ("Are you having lower back pain?", "back_pain")]
    threshold := 4
    syms := ["Fever", "Chills", "Abdominal pain", "Nausea", "Headache", "Sweating", "Cough",
             "Weakness", "Muscle pain", "Back pain"] }

/-- `rule_hiv`. -/
def rule_hiv : DiseaseRule :=
  { name := "AIDS"
    questions :=
      [("Are you experiencing headache?", "headache"),
       ("Are you having muscle aches and joint pain?", "muscle_ache"),
       ("Are you experiencing sore throat and painful mouth sores?", "sore_throat"),
       ("Are you experiencing swollen lymph glands especially on the neck?", "swollen_lymph"),
       ("Are you experiencing Diarrhea?", "diarrhea"),
       ("Are you coughing frequently?", "cough"),
       ("Did you experience unintentional weight loss?", "weight_loss"),
       ("Are you experiencing Night Sweats?", "night_sweats")]
    threshold := 6
    syms := ["Fever", "Rashes", "Headache", "Muscle ache", "Sore throat", "Swollen lymph nodes",
             "Diarrhea", "Cough", "Weight loss", "Night sweat"] }

/-- `rule_pancreatitis`. -/
def rule_pancreatitis : DiseaseRule :=
  { name := "Pancreatitis"
    questions :=
      [("Are you experiencing upper abdominal pain?", "upper_abdominal_pain"),
       ("Is the abdominal pain worse after eating?", "abdominal_worse_after_eating"),
       ("Is your heartbeat at high rate?", "fast_heartbeat"),
       ("Did you experience unintentional weight loss?", "weight_loss"),
       ("Are you having oily smelly stools?", "oily_stool")]
    threshold := 3
    syms := ["Nausea", "Fever", "Upper abdominal pain", "Fast heartbeat", "Weight loss",
             "Oily and smelly stool"] }

/-- `rule_covid`. -/
def rule_covid : DiseaseRule :=
  { name := "COVID-19"
    questions :=
      [("Are you having chills sometimes with shaking?", "chills"),
       ("Do you cough frequently?", "cough"),
       ("Are you having body aches?", "body_aches"),
       ("Are you experiencing headache?", "headache"),
       ("Are you experiencing sore throat and mouth soreness?", "sore_throat"),
       ("Did you lose your sense of smell and taste considerably?", "loss_of_taste_smell"),
       ("Are you experiencing Diarrhea?", "diarrhea")]
    threshold := 4
    syms := ["Fever", "Fatigue", "Shortness in breath", "Nausea", "Chills", "Cough", "Body aches",
             "Headache", "Sore throat", "Diarrhea", "Loss of taste/smell"] }

/-- All twenty disease rules, in source declaration order (which coincides
with the order of the spec's threshold table). -/
def ruleCatalog : List DiseaseRule :=
  [rule_arthritis, rule_peptic, rule_gastritis, rule_diabetes, rule_dehydration,
   rule_hypothyroid, rule_obesity, rule_anemia, rule_cad, rule_asthma,
   rule_dengue, rule_bronchitis, rule_tb, rule_influenza, rule_hepatitis,
   rule_pneumonia, rule_malaria, rule_hiv, rule_pancreatitis, rule_covid]

-- ---------------------------------------------------------------------------
-- Best-match fallback ranking (C2, C3, C4)
-- ---------------------------------------------------------------------------

/-- One tuple `(score, disease, matched)` produced by
`_compute_best_matches`.  The float score `len(matched)/len(profile_set)`
is kept as the exact fraction `num / den`; the denominator (a profile
size) is positive by construction.  Two such fractions compare equal as
floats exactly when they are equal as rationals, so ordering is
preserved. -/
structure MatchEntry where
  num : Nat
  den : ℕ+
  disease : String
  matched : List String
deriving DecidableEq

/-- The rational value of an entry's score. -/
def scoreQ (e : MatchEntry) : ℚ := (e.num : ℚ) / ((e.den : ℕ) : ℚ)

/-- The order in which `heapq.heappop` returns the `(-score, disease,
matched)` tuples: higher score first, equal scores broken by code-point
ascending disease name (disease names in the table are distinct, so the
`matched` component is never compared).  Score comparison is by
cross-multiplication, which agrees with the rational (and float) order
because denominators are positive. -/
def rankRel (a b : MatchEntry) : Prop :=
  b.num * (a.den : ℕ) < a.num * (b.den : ℕ) ∨
    (a.num * (b.den : ℕ) = b.num * (a.den : ℕ) ∧ strle a.disease b.disease)

instance : DecidableRel rankRel := fun a b =>
  inferInstanceAs (Decidable (b.num * (a.den : ℕ) < a.num * (b.den : ℕ) ∨
    (a.num * (b.den : ℕ) = b.num * (a.den : ℕ) ∧ strle a.disease b.disease)))

theorem den_cast_pos (e : MatchEntry) : (0 : ℚ) < ((e.den : ℕ) : ℚ) := by
  exact_mod_cast e.den.2

theorem rank_lt_iff (a b : MatchEntry) :
    b.num * (a.den : ℕ) < a.num * (b.den : ℕ) ↔ scoreQ b < scoreQ a := by
  unfold scoreQ
  rw [div_lt_div_iff₀ (den_cast_pos b) (den_cast_pos a)]
  exact_mod_cast Iff.rfl

theorem rank_eq_iff (a b : MatchEntry) :
    a.num * (b.den : ℕ) = b.num * (a.den : ℕ) ↔ scoreQ a = scoreQ b := by
  unfold scoreQ
  rw [div_eq_div_iff (ne_of_gt (den_cast_pos a)) (ne_of_gt (den_cast_pos b))]
  exact_mod_cast Iff.rfl

theorem rankRel_total (a b : MatchEntry) : rankRel a b ∨ rankRel b a := by
  rcases lt_trichotomy (scoreQ a) (scoreQ b) with h | h | h
  · exact Or.inr (Or.inl ((rank_lt_iff b a).mpr h))
  · rcases strle_total a.disease b.disease with hn | hn
    · exact Or.inl (Or.inr ⟨(rank_eq_iff a b).mpr h, hn⟩)
    · exact Or.inr (Or.inr ⟨(rank_eq_iff b a).mpr h.symm, hn⟩)
  · exact Or.inl (Or.inl ((rank_lt_iff a b).mpr h))

theorem rankRel_trans (a b c : MatchEntry) (hab : rankRel a b) (hbc : rankRel b c) :
    rankRel a c := by
  rcases hab with hab | ⟨hab, han⟩
  · rcases hbc with hbc | ⟨hbc, _⟩
    · exact Or.inl ((rank_lt_iff a c).mpr
        (lt_trans ((rank_lt_iff b c).mp hbc) ((rank_lt_iff a b).mp hab)))
    · exact Or.inl ((rank_lt_iff a c).mpr
        (((rank_eq_iff b c).mp hbc) ▸ ((rank_lt_iff a b).mp hab)))
  · rcases hbc with hbc | ⟨hbc, hbn⟩
    · exact Or.inl ((rank_lt_iff a c).mpr
        (((rank_eq_iff a b).mp hab).symm ▸ ((rank_lt_iff b c).mp hbc)))
    · exact Or.inr ⟨(rank_eq_iff a c).mpr
        (((rank_eq_iff a b).mp hab).trans ((rank_eq_iff b c).mp hbc)),
        strle_trans han hbn⟩
instance : IsTotal MatchEntry rankRel := ⟨rankRel_total⟩

instance : IsTrans MatchEntry rankRel := ⟨rankRel_trans⟩

/-- The loop body of `_compute_best_matches`: for each disease with a
non-empty profile, the intersection of its profile set with the affirmed
set, sorted, together with the fractional score.  This is the heap's
content before any `heappop`. -/
def scoredEntries (yes : Finset String) : List MatchEntry :=
  disease_profiles.filterMap (fun dp =>
    if h : dp.2.dedup = [] then none
    else
      some { num := (List.insertionSort strle (dp.2.dedup.filter (fun t => decide (t ∈ yes)))).length
             den := ⟨dp.2.dedup.length, List.length_pos.mpr h⟩
             disease := dp.1
             matched := List.insertionSort strle (dp.2.dedup.filter (fun t => decide (t ∈ yes))) })

/-- `MedicalExpertEngine._compute_best_matches`: empty `yes_symptoms`
short-circuits to `[]`; otherwise pop the `min(top_k, len(heap))` best
entries, i.e. take `top_k` from the heap order. -/
def compute_best_matches (yes : Finset String) (top_k : Nat) : List MatchEntry :=
  if yes = ∅ then []
  else (List.insertionSort rankRel (scoredEntries yes)).take top_k

/-- One display line of the best-match message:
`f"{disease} ({pct}% match) — matched: ..."` with `pct = int(score*100)`
(truncating division; scores are non-negative so this is `num*100/den`). -/
def matchLine (e : MatchEntry) : String :=
  e.disease ++ " (" ++ toString (e.num * 100 / (e.den : ℕ)) ++ "% match) — matched: " ++
    (if e.matched = [] then "none" else String.intercalate ", " e.matched)

/-- `fallback_best_match` (the `salience=-100` rule): if no symptom
matched anything, finalize with "No match"; otherwise report the ranked
list, store the top suggestion as the diagnosis, enable treatment for it
and log the session. -/
def fallback_best_match (yes : Finset String) (log : Except String Unit) : FinalState :=
  match compute_best_matches yes 3 with
  | [] => finalize "No match" ["Symptoms did not match known patterns — consult a physician"] log
  | e :: rest =>
    { diagnosis := e.disease
      matched_symptoms := e.matched
      events := [Ev.tell ("Best matches:\n - " ++
                   String.intercalate "\n - " ((e :: rest).map matchLine)),
                 Ev.enableTreatment e.disease] ++ logEvents log }

-- ---------------------------------------------------------------------------
-- start_engine: the four termination paths (C6, C7)
-- ---------------------------------------------------------------------------

/-- How a session can end: a disease rule fired `_finalize`; control fell
through to `fallback_best_match` (which itself either best-matches or
reports "No match"); or an unexpected exception escaped.  A fault can only
happen before any finalization, so the events preceding it are chat
messages (`pre`). -/
inductive TermPath where
  | ruleMatch (disease : String) (syms : List String) (log : Except String Unit)
  | fallback (yes : Finset String) (log : Except String Unit)
  | fault (pre : List String) (err : String)

/-- The closing message printed when `start_engine` catches the
`SystemExit` raised by `_finalize`/`fallback_best_match`. -/
def finished_msg : String :=
  "✅ Diagnosis session finished. You can open treatment info or close the app."

/-- `start_engine`: normal termination (`SystemExit`) appends the closing
message; an unexpected exception appends the error notice instead. -/
def start_engine : TermPath → List Ev
  | TermPath.ruleMatch d syms log => (finalize d syms log).events ++ [Ev.tell finished_msg]
  | TermPath.fallback yes log => (fallback_best_match yes log).events ++ [Ev.tell finished_msg]
  | TermPath.fault pre err => pre.map Ev.tell ++ [Ev.tell ("System: An error occurred: " ++ err)]

-- ---------------------------------------------------------------------------
-- Session log rows (C8)
-- ---------------------------------------------------------------------------

/-- The csv header written by `_log_session` when `sessions.csv` does not
exist yet. -/
def sessionHeader : List String :=
  ["timestamp", "name", "gender", "diagnosis", "matched_symptoms", "yes_symptoms"]

/-- The row `_log_session` builds: multi-valued fields `;`-joined, the
affirmed-symptom set sorted ascending before joining. -/
def sessionRow (timestamp nm gender diag : String) (matched : List String)
    (yes : Finset String) : List String :=
  [timestamp, nm, gender, diag, String.intercalate ";" matched,
   String.intercalate ";" (Finset.sort strle yes)]

/-- The file-level effect of `_log_session`: `none` models a missing
`sessions.csv` (header is written first), `some rows` an existing one
(append only). -/
def log_session (existing : Option (List (List String))) (row : List String) :
    List (List String) :=
  match existing with
  | none => [sessionHeader, row]
  | some rows => rows ++ [row]


-- ---------------------------------------------------------------------------
-- Helper lemmas about the fallback ranker
-- ---------------------------------------------------------------------------

theorem scoredEntries_shape {yes : Finset String} {e : MatchEntry}
    (h : e ∈ scoredEntries yes) :
    ∃ dp ∈ disease_profiles, dp.2.dedup ≠ [] ∧ e.disease = dp.1 ∧
      e.matched = List.insertionSort strle (dp.2.dedup.filter (fun t => decide (t ∈ yes))) ∧
      e.num = e.matched.length ∧ (e.den : ℕ) = dp.2.dedup.length := by
  simp only [scoredEntries, List.mem_filterMap] at h
  obtain ⟨dp, hdp, hf⟩ := h
  by_cases hem : dp.2.dedup = []
  · rw [dif_pos hem] at hf
    exact absurd hf (by simp)
  · rw [dif_neg hem] at hf
    obtain rfl := Option.some.inj hf
    exact ⟨dp, hdp, hem, rfl, rfl, rfl, rfl⟩

theorem mem_scoredEntries_of_profile {yes : Finset String} {dp : String × List String}
    (hdp : dp ∈ disease_profiles) (hne : dp.2.dedup ≠ []) :
    ({ num := (List.insertionSort strle (dp.2.dedup.filter (fun t => decide (t ∈ yes)))).length
       den := ⟨dp.2.dedup.length, List.length_pos.mpr hne⟩
       disease := dp.1
       matched := List.insertionSort strle (dp.2.dedup.filter (fun t => decide (t ∈ yes))) } :
      MatchEntry) ∈ scoredEntries yes := by
  simp only [scoredEntries, List.mem_filterMap]
  exact ⟨dp, hdp, by rw [dif_neg hne]⟩

theorem mem_compute_subset {yes : Finset String} {k : Nat} {e : MatchEntry}
    (h : e ∈ compute_best_matches yes k) : e ∈ scoredEntries yes := by
  unfold compute_best_matches at h
  split at h
  · exact absurd h (List.not_mem_nil e)
  · exact ((List.perm_insertionSort rankRel (scoredEntries yes)).mem_iff).mp
      (List.take_subset _ _ h)

theorem compute_sorted (yes : Finset String) (k : Nat) :
    List.Sorted rankRel (compute_best_matches yes k) := by
  unfold compute_best_matches
  split
  · exact List.sorted_nil
  · exact (List.sorted_insertionSort rankRel (scoredEntries yes)).sublist
      (List.take_sublist k _)

theorem compute_length_le (yes : Finset String) (k : Nat) :
    (compute_best_matches yes k).length ≤ k := by
  unfold compute_best_matches
  split
  · exact Nat.zero_le k
  · rw [List.length_take]
    exact Nat.min_le_left _ _

theorem filterMap_length_le_filter {α β : Type} (f : α → Option β) (p : α → Bool)
    (hf : ∀ a, p a = false → f a = none) :
    ∀ l : List α, (l.filterMap f).length ≤ (l.filter p).length := by
  intro l
  induction l with
  | nil => simp
  | cons a t ih =>
    cases hpa : p a
    · rw [List.filterMap_cons, hf a hpa, List.filter_cons, hpa]
      simpa using ih
    · rw [List.filterMap_cons, List.filter_cons, hpa]
      cases f a
      · simpa using Nat.le_succ_of_le ih
      · simpa using ih

theorem compute_length_le_profiles (yes : Finset String) (k : Nat) :
    (compute_best_matches yes k).length ≤
      (disease_profiles.filter (fun dp => !(dp.2.dedup.isEmpty))).length := by
  unfold compute_best_matches
  split
  · exact Nat.zero_le _
  · calc ((List.insertionSort rankRel (scoredEntries yes)).take k).length
        ≤ (List.insertionSort rankRel (scoredEntries yes)).length :=
          (List.take_sublist k _).length_le
      _ = (scoredEntries yes).length := List.length_insertionSort _ _
      _ ≤ _ := by
          apply filterMap_length_le_filter
          intro dp hdp
          have : dp.2.dedup = [] := by
            rw [Bool.not_eq_false'] at hdp
            exact List.isEmpty_iff.mp hdp
          rw [dif_pos this]
  -- the filter predicate keeps exactly the diseases the ranker scores

theorem score_bounds_of_mem {yes : Finset String} {e : MatchEntry}
    (h : e ∈ scoredEntries yes) : 0 ≤ scoreQ e ∧ scoreQ e ≤ 1 := by
  obtain ⟨dp, _, _, _, hm, hn, hd⟩ := scoredEntries_shape h
  have hle : e.num ≤ (e.den : ℕ) := by
    rw [hn, hm, List.length_insertionSort, hd]
    exact List.length_filter_le _ _
  constructor
  · exact div_nonneg (Nat.cast_nonneg _) (Nat.cast_nonneg _)
  · rw [scoreQ, div_le_one (den_cast_pos e)]
    exact_mod_cast hle

-- ---------------------------------------------------------------------------
-- Claim theorems
-- ---------------------------------------------------------------------------

/-- C1: every disease rule asks exactly the question count and uses exactly
the minimum-yes threshold of the table (Arthritis 5/3 ... COVID-19 7/4),
and a rule finalizes a Diagnosis exactly when the tally of "yes" answers
among its sub-questions meets or exceeds its threshold; hence every
finalized rule-path Diagnosis has at least threshold-many "yes" answers. -/
theorem rule_threshold_table :
    (ruleCatalog.map (fun r => (r.name, r.questions.length, r.threshold)) =
      [("Arthritis", 5, 3), ("Peptic Ulcer", 5, 3), ("Gastritis", 6, 4), ("Diabetes", 6, 4),
       ("Dehydration", 4, 2), ("Hypothyroidism", 10, 7), ("Obesity", 6, 4), ("Anemia", 5, 3),
       ("Coronary Arteriosclerosis", 4, 2), ("Asthma", 2, 1), ("Dengue", 7, 5),
       ("Bronchitis", 9, 7), ("Tuberculosis", 4, 2), ("Influenza", 6, 4), ("Hepatitis", 5, 3),
       ("Pneumonia", 5, 3), ("Malaria", 6, 4), ("AIDS", 8, 6), ("Pancreatitis", 5, 3),
       ("COVID-19", 7, 4)]) ∧
    ∀ ansOf r ys log, ((runRule ansOf r ys log).2.isSome ↔
      r.threshold ≤ countYes (r.questions.map (fun qt => ansOf qt.1))) := by
  constructor
  · decide
  · intro ansOf r ys log
    by_cases hc : r.threshold ≤ countYes (r.questions.map (fun qt => ansOf qt.1))
    · simp [runRule, hc]
    · simp [runRule, hc]

/-- C4: with an empty affirmed-symptom set the ranker returns the empty
list, and `fallback_best_match` then finalizes the session with the
"No match" outcome — a label that is not any catalog disease — and the
session still ends with the normal closing message. -/
theorem empty_yes_no_match (log : Except String Unit) :
    compute_best_matches ∅ 3 = [] ∧
    (fallback_best_match ∅ log).diagnosis = "No match" ∧
    "No match" ∉ disease_profiles.map Prod.fst ∧
    Ev.tell finished_msg ∈ start_engine (TermPath.fallback ∅ log) := by
  have h0 : compute_best_matches ∅ 3 = [] := by decide
  refine ⟨h0, ?_, by decide, ?_⟩
  · simp only [fallback_best_match, h0, finalize]
  · simp [start_engine]

theorem foldl_record_superset (ops : List String) :
    ∀ ys : Finset String, ys ⊆ ops.foldl (fun s tok => record_yes tok s) ys := by
  induction ops with
  | nil => exact fun ys => Finset.Subset.refl ys
  | cons a l ih =>
    intro ys
    refine Finset.Subset.trans ?_ (ih (record_yes a ys))
    unfold record_yes
    split
    · exact Finset.Subset.refl ys
    · exact Finset.subset_insert _ ys

/-- C5: the affirmed-symptom set is monotonically non-decreasing — a
single `_record_yes` never removes elements, any sequence of recordings
never removes elements, and recording an already-present token leaves the
set and its cardinality unchanged. -/
theorem record_yes_monotone (t : String) (ys : Finset String) (ops : List String) :
    ys ⊆ record_yes t ys ∧
    (t ∈ ys → record_yes t ys = ys) ∧
    (t ∈ ys → (record_yes t ys).card = ys.card) ∧
    ys ⊆ ops.foldl (fun s tok => record_yes tok s) ys := by
  have hmem : t ∈ ys → record_yes t ys = ys := by
    intro ht
    unfold record_yes
    split
    · rfl
    · exact Finset.insert_eq_self.mpr ht
  refine ⟨?_, hmem, fun ht => by rw [hmem ht], foldl_record_superset ops ys⟩
  unfold record_yes
  split
  · exact Finset.Subset.refl ys
  · exact Finset.subset_insert _ ys

/-- C5 witness: recording "fever" when it is already present changes
neither the set nor its size. -/
theorem record_yes_monotone_witness :
    record_yes "fever" {"fever"} = {"fever"} ∧
    (record_yes "fever" {"fever"}).card = ({"fever"} : Finset String).card :=
  ⟨(record_yes_monotone "fever" {"fever"} []).2.1 (Finset.mem_singleton_self "fever"),
   (record_yes_monotone "fever" {"fever"} []).2.2.1 (Finset.mem_singleton_self "fever")⟩

/-- C8: a session record is a delimited row with the six fields in order
timestamp, name, gender, diagnosis, matched_symptoms, yes_symptoms; the
multi-valued fields are ";"-joined with the affirmed-symptom field sorted
ascending first; and the header row is written exactly when the
destination does not yet exist (appends to an existing file add only the
row). -/
theorem session_record_layout (timestamp nm gender diag : String) (matched : List String)
    (yes : Finset String) (rows : List (List String)) :
    sessionRow timestamp nm gender diag matched yes =
      [timestamp, nm, gender, diag, String.intercalate ";" matched,
        String.intercalate ";" (Finset.sort strle yes)] ∧
    List.Sorted strle (Finset.sort strle yes) ∧
    (∀ t, t ∈ Finset.sort strle yes ↔ t ∈ yes) ∧
    log_session none (sessionRow timestamp nm gender diag matched yes) =
      [sessionHeader, sessionRow timestamp nm gender diag matched yes] ∧
    (log_session none (sessionRow timestamp nm gender diag matched yes)).head? =
      some sessionHeader ∧
    log_session (some rows) (sessionRow timestamp nm gender diag matched yes) =
      rows ++ [sessionRow timestamp nm gender diag matched yes] :=
  ⟨rfl, Finset.sort_sorted strle yes, fun _ => Finset.mem_sort strle, rfl, rfl, rfl⟩

/-- C10: selecting "Normal Fever" records the token "fever" — the token
the disease profiles use — not "normal_fever", which is declared only as a
bare branch-guard fact; "Low Fever" and "High Fever" record "low_fever"
and "high_fever"; no profile contains "normal_fever" while eight contain
"fever". -/
theorem fever_token_mapping :
    feverStep ["Normal Fever"] =
      ([EFact.kv "fever" "yes", EFact.tok "normal_fever"], {"fever"}) ∧
    feverStep ["Low Fever"] =
      ([EFact.kv "fever" "yes", EFact.tok "low_fever"], {"low_fever"}) ∧
    feverStep ["High Fever"] =
      ([EFact.kv "fever" "yes", EFact.tok "high_fever"], {"high_fever"}) ∧
    disease_profiles.filter (fun dp => dp.2.contains "normal_fever") = [] ∧
    (disease_profiles.filter (fun dp => dp.2.contains "fever")).map Prod.fst =
      ["Tuberculosis", "Influenza", "Hepatitis", "Pneumonia", "Malaria", "AIDS",
       "Pancreatitis", "COVID-19"] :=
  ⟨by decide, by decide, by decide, by decide, by decide⟩

/-- C2: for every affirmed-symptom set the fallback ranker scores each
disease with a non-empty profile as |S ∩ Pd| / |Pd|, returns at most
`top_k` results ranked by score descending with ties broken by
lexicographically ascending disease name, and each result carries the
sorted list of matched tokens. -/
theorem compute_best_matches_spec (yes : Finset String) (k : Nat) :
    (compute_best_matches yes k).length ≤ k ∧
    List.Sorted rankRel (compute_best_matches yes k) ∧
    (compute_best_matches yes k).Pairwise (fun a b =>
      scoreQ b ≤ scoreQ a ∧ (scoreQ a = scoreQ b → strle a.disease b.disease)) ∧
    (∀ dp, dp ∈ disease_profiles → dp.2.dedup ≠ [] →
      ∃ e ∈ scoredEntries yes, e.disease = dp.1 ∧
        scoreQ e = ((dp.2.dedup.filter (fun t => decide (t ∈ yes))).length : ℚ) /
          (dp.2.dedup.length : ℚ)) ∧
    (∀ e ∈ compute_best_matches yes k,
      List.Sorted strle e.matched ∧
      ∃ dp ∈ disease_profiles, e.disease = dp.1 ∧
        (∀ t, t ∈ e.matched ↔ (t ∈ dp.2 ∧ t ∈ yes)) ∧
        scoreQ e = ((dp.2.dedup.filter (fun t => decide (t ∈ yes))).length : ℚ) /
          (dp.2.dedup.length : ℚ)) := by
  refine ⟨compute_length_le yes k, compute_sorted yes k, ?_, ?_, ?_⟩
  · refine List.Pairwise.imp ?_ (compute_sorted yes k)
    intro a b hab
    rcases hab with h | ⟨heq, hn⟩
    · refine ⟨le_of_lt ((rank_lt_iff a b).mp h), fun he => absurd ((rank_lt_iff a b).mp h) ?_⟩
      rw [he]
      exact lt_irrefl _
    · exact ⟨le_of_eq ((rank_eq_iff a b).mp heq).symm, fun _ => hn⟩
  · intro dp hdp hne
    refine ⟨_, @mem_scoredEntries_of_profile yes dp hdp hne, rfl, ?_⟩
    simp [scoreQ, List.length_insertionSort]
  · intro e he
    obtain ⟨dp, hdp, hne, hdis, hm, hn, hd⟩ := scoredEntries_shape (mem_compute_subset he)
    refine ⟨?_, dp, hdp, hdis, ?_, ?_⟩
    · rw [hm]
      exact List.sorted_insertionSort strle _
    · intro t
      rw [hm, (List.perm_insertionSort strle _).mem_iff, List.mem_filter, List.mem_dedup,
        decide_eq_true_eq]
    · rw [scoreQ, hn, hm, List.length_insertionSort, hd]

/-- C2 witness: with affirmed set {"cough"}, the disease "Asthma"
(profile size 5) is scored 1/5 with matched token list ["cough"]. -/
theorem compute_best_matches_spec_witness :
    ∃ e ∈ scoredEntries {"cough"}, e.disease = "Asthma" ∧
      scoreQ e = ((["short_breath", "chest_pain", "cough", "wheezing", "sleep_trouble"].dedup.filter
          (fun t => decide (t ∈ ({"cough"} : Finset String)))).length : ℚ) /
        (["short_breath", "chest_pain", "cough", "wheezing", "sleep_trouble"].dedup.length : ℚ) :=
  (compute_best_matches_spec {"cough"} 3).2.2.2.1
    ("Asthma", ["short_breath", "chest_pain", "cough", "wheezing", "sleep_trouble"])
    (by decide) (by decide)

/-- C3 counterexample: with the non-empty affirmed set {"red_eyes"} — a
token `ask_basic` records but no profile contains — the ranker returns
entries of score 0, so not every returned score lies in (0, 1] and a
returned disease can have no matched token. -/
theorem fallback_zero_score_counterexample :
    ({"red_eyes"} : Finset String) ≠ ∅ ∧
    (⟨0, 10, "AIDS", []⟩ : MatchEntry) ∈ compute_best_matches {"red_eyes"} 3 ∧
    ¬ (0 < scoreQ (⟨0, 10, "AIDS", []⟩ : MatchEntry)) := by
  refine ⟨by decide, by decide, ?_⟩
  simp [scoreQ]

/-- C3 (amended): every returned score lies in [0, 1] (a returned disease
may have zero matched tokens), and the result length is at most top_k and
at most the number of non-empty profiles. -/
theorem fallback_score_bounds (yes : Finset String) :
    (∀ e ∈ compute_best_matches yes 3, 0 ≤ scoreQ e ∧ scoreQ e ≤ 1) ∧
    (compute_best_matches yes 3).length ≤ 3 ∧
    (compute_best_matches yes 3).length ≤
      (disease_profiles.filter (fun dp => !(dp.2.dedup.isEmpty))).length :=
  ⟨fun _ he => score_bounds_of_mem (mem_compute_subset he),
   compute_length_le yes 3, compute_length_le_profiles yes 3⟩

/-- C3 witness: the Tuberculosis entry returned for affirmed set
{"fatigue"} has score 1/5, inside [0, 1]. -/
theorem fallback_score_bounds_witness :
    0 ≤ scoreQ (⟨1, 5, "Tuberculosis", ["fatigue"]⟩ : MatchEntry) ∧
      scoreQ (⟨1, 5, "Tuberculosis", ["fatigue"]⟩ : MatchEntry) ≤ 1 :=
  (fallback_score_bounds {"fatigue"}).1 ⟨1, 5, "Tuberculosis", ["fatigue"]⟩ (by decide)

/-- C6 counterexample: on the "No match" termination the engine also
enables the follow-up (treatment) action, because `_finalize` calls
`enable_treatment` unconditionally — including when invoked with
"No match". -/
theorem no_match_enables_followup :
    compute_best_matches ∅ 3 = [] ∧
    Ev.enableTreatment "No match" ∈ start_engine (TermPath.fallback ∅ (Except.ok ())) :=
  ⟨by decide, by decide⟩

/-- C6 (amended): every termination path ends with a final message to the
interaction surface; the follow-up action is enabled on rule-match,
fallback-match AND no-match terminations (the last with the label
"No match"), and never on fault terminations. -/
theorem termination_paths (d : String) (syms : List String) (log : Except String Unit)
    (yes : Finset String) (pre : List String) (err : String) :
    (∃ m, (start_engine (TermPath.ruleMatch d syms log)).getLast? = some (Ev.tell m)) ∧
    (∃ m, (start_engine (TermPath.fallback yes log)).getLast? = some (Ev.tell m)) ∧
    (∃ m, (start_engine (TermPath.fault pre err)).getLast? = some (Ev.tell m)) ∧
    Ev.enableTreatment d ∈ start_engine (TermPath.ruleMatch d syms log) ∧
    ((compute_best_matches yes 3 = [] ∧
        Ev.enableTreatment "No match" ∈ start_engine (TermPath.fallback yes log)) ∨
      (∃ e rest, compute_best_matches yes 3 = e :: rest ∧
        Ev.enableTreatment e.disease ∈ start_engine (TermPath.fallback yes log))) ∧
    (∀ d2, Ev.enableTreatment d2 ∉ start_engine (TermPath.fault pre err)) := by
  refine ⟨⟨finished_msg, ?_⟩, ⟨finished_msg, ?_⟩,
    ⟨"System: An error occurred: " ++ err, ?_⟩, ?_, ?_, ?_⟩
  · simp [start_engine, List.getLast?_concat]
  · simp [start_engine, List.getLast?_concat]
  · simp [start_engine, List.getLast?_concat]
  · simp [start_engine, finalize]
  · cases h : compute_best_matches yes 3 with
    | nil =>
      exact Or.inl ⟨rfl, by simp [start_engine, fallback_best_match, h, finalize]⟩
    | cons e rest =>
      exact Or.inr ⟨e, rest, rfl, by simp [start_engine, fallback_best_match, h]⟩
  · intro d2 hmem
    simp [start_engine] at hmem

/-- C7: a recorder failure is caught and reported as a notification
message, the diagnosis having already been reported first, and the session
still reaches the normal closing message — on the rule-match path and on
the fallback path alike. -/
theorem recorder_failure_nonfatal (d err : String) (syms : List String) (yes : Finset String) :
    Ev.tell ("(Session logging failed: " ++ err ++ ")") ∈
      start_engine (TermPath.ruleMatch d syms (Except.error err)) ∧
    (start_engine (TermPath.ruleMatch d syms (Except.error err))).getLast? =
      some (Ev.tell finished_msg) ∧
    (start_engine (TermPath.ruleMatch d syms (Except.error err))).head? =
      some (Ev.tell ("Diagnosis: " ++ d ++ "\nMatched symptoms:\n - " ++
        String.intercalate "\n - " syms)) ∧
    (finalize d syms (Except.error err)).diagnosis = d ∧
    Ev.tell ("(Session logging failed: " ++ err ++ ")") ∈
      start_engine (TermPath.fallback yes (Except.error err)) ∧
    (start_engine (TermPath.fallback yes (Except.error err))).getLast? =
      some (Ev.tell finished_msg) := by
  refine ⟨?_, ?_, ?_, rfl, ?_, ?_⟩
  · simp [start_engine, finalize, logEvents]
  · simp [start_engine, List.getLast?_concat]
  · simp [start_engine, finalize]
  · cases h : compute_best_matches yes 3 with
    | nil => simp [start_engine, fallback_best_match, h, finalize, logEvents]
    | cons e rest => simp [start_engine, fallback_best_match, h, logEvents]
  · simp [start_engine, List.getLast?_concat]
